import Mathlib

/-!
Shallow embedding of `src/rfp_gatherer.py` (RFP Gathering Tool).

The script defines a class `RFPGatherer` with one source adapter
(`fetch_indiana_idoa_rfps`), an accumulator (`gather_rfps`), a JSON sink
(`save_to_file`) and a `main` entry point.  External effects (the HTTP
request, BeautifulSoup parsing, the system clock, Python's per-process
salted `hash` for `str`, and file writes) are passed in as explicit
parameters; Python exceptions are modelled with `Except`.
-/

set_option maxRecDepth 8000

namespace RFP

/-- Python exceptions as the script distinguishes them: the handler at line
164 catches `requests.exceptions.RequestException`; the handler at line 200
catches every other `Exception`. -/
inductive PyExn where
  | requestException (msg : String)
  | otherException (msg : String)
deriving DecidableEq

/-- Python `str.strip()` (no argument): remove whitespace from both ends.
Used at line 107 (`text_content[:200].strip()`). -/
def pyStrip (s : String) : String :=
  String.mk (((s.data.dropWhile Char.isWhitespace).reverse.dropWhile Char.isWhitespace).reverse)

/-- Python `s.startswith(p)`: the character sequence of `p` begins `s`.
Used at line 86 (`rfp_url.startswith('http')`). -/
def pyStartswith (s p : String) : Bool := p.data.isPrefixOf s.data

/-- Python `s.endswith(p)` (only used in the verification statements, to
check for an ellipsis marker). -/
def pyEndswith (s p : String) : Bool := p.data.isSuffixOf s.data

/-- Python `s[:n]`: the first `n` characters of `s`.
Used at line 107 (`text_content[:200]`). -/
def pySlice (s : String) (n : Nat) : String := String.mk (s.data.take n)

/-- Canonical RFP record: the eight keys of the dict literal built at lines
109-118, which the sample-data literals (lines 131-162 and 168-199) share. -/
structure Record where
  title : String
  agency : String
  posted_date : String
  due_date : String
  notice_id : String
  description : String
  source : String
  url : String
deriving DecidableEq

/-- Key/value pairs of the record dict in insertion order (Python dicts
preserve insertion order, and every dict literal in the script lists the
keys in this order). -/
def Record.toPairs (r : Record) : List (String × String) :=
  [("title", r.title), ("agency", r.agency), ("posted_date", r.posted_date),
   ("due_date", r.due_date), ("notice_id", r.notice_id),
   ("description", r.description), ("source", r.source), ("url", r.url)]

/-- The eight keys every record dict in the script carries. -/
def recordKeys : List String :=
  ["title", "agency", "posted_date", "due_date", "notice_id", "description",
   "source", "url"]

/-- One candidate DOM element, represented by the results of the
BeautifulSoup calls the loop body (lines 72-126) performs on it:
`titleText` is the stripped text of the first `a`/heading/`strong` child
(`none` when `element.find` returns `None`, line 75-77); `linkHref` is the
first `a` child's `href` attribute (`none` when the element has no `a`
child; an `a` child without `href` yields `some ""` because
`link.get('href','')` returns the empty string, line 85); `textContent` is
`element.get_text()` (line 90); `dates` is the list returned by
`re.findall` with the date pattern on `textContent` (lines 97-98). -/
structure Element where
  titleText : Option String
  linkHref : Option String
  textContent : String
  dates : List String
deriving DecidableEq

/-- The listing-page URL hardcoded at line 33, also the per-record fallback
URL (line 117) and the `url` field of every sample record. -/
def listingUrl : String :=
  "https://www.in.gov/idoa/procurement/current-business-opportunities/"

/-- The base hardcoded at line 87 for resolving relative hrefs. -/
def baseUrl : String := "https://www.in.gov"

/-- The constant agency name assigned at line 93. -/
def agencyName : String := "Indiana Department of Administration"

/-- Python format spec `04d` applied to a value in 0..9999: left-pad the
decimal digits with zeros to width 4. -/
def pad4 (n : Nat) : String :=
  let s := toString n
  String.mk (List.replicate (4 - s.length) '0') ++ s

/-- Line 104: `notice_id` is the string `IN-IDOA-` followed by
`hash(title) % 10000` formatted as `04d`.  `hashFn` stands for Python's
built-in `hash` on `str`, which is salted per process (PYTHONHASHSEED), so
it is an input of the run rather than a fixed function; Python `%` with a
positive right operand returns a value in `[0, 10000)` exactly like
`Int.emod`. -/
def noticeId (hashFn : String → Int) (title : String) : String :=
  "IN-IDOA-" ++ pad4 (hashFn title % 10000).toNat

/-- Lines 86-87: a nonempty href that does not start with the four literal
characters `http` gets the hardcoded base prepended; everything else is
kept as is. -/
def resolveUrl (raw : String) : String :=
  if raw ≠ "" ∧ pyStartswith raw "http" = false then baseUrl ++ raw else raw

/-- Lines 84-87 together with line 117 (`"url": rfp_url or url`): the
resolved href when it is nonempty, the listing-page URL otherwise. -/
def recordUrl (linkHref : Option String) : String :=
  let raw := linkHref.getD ""
  let resolved := resolveUrl raw
  if resolved = "" then listingUrl else resolved

/-- Lines 106-107: the first 200 characters of the element text, then
`str.strip()`.  The budget 200 is hardcoded; nothing is appended. -/
def descriptionOf (text : String) : String := pyStrip (pySlice text 200)

/-- Loop body, lines 72-126: build the record for one element, `none` when
the element is skipped (no title child, line 76-77; title empty or shorter
than 5, lines 80-81; or the final `len(title) > 10` guard at line 121
fails).  `today` is `datetime.now().strftime('%Y-%m-%d')` (line 100). -/
def extractRfp (hashFn : String → Int) (today : String) (el : Element) :
    Option Record :=
  match el.titleText with
  | none => none
  | some title =>
    if title = "" ∨ title.length < 5 then none
    else if 10 < title.length then
      some { title := title
             agency := agencyName
             posted_date := (el.dates.get? 0).getD today
             due_date := (el.dates.get? 1).getD ""
             notice_id := noticeId hashFn title
             description := descriptionOf el.textContent
             source := "Indiana IDOA"
             url := recordUrl el.linkHref }
    else none

/-- The for-loop over `rfp_elements` (lines 72-126): an element whose
library calls raise is skipped by the inner `except Exception: continue`
(lines 124-126); accepted records are appended in order. -/
def processElements (hashFn : String → Int) (today : String)
    (elems : List (Except PyExn Element)) : List Record :=
  elems.filterMap fun e =>
    match e with
    | .error _ => none
    | .ok el => extractRfp hashFn today el

/-- The three hardcoded sample records (lines 131-162); the handler at
lines 168-199 repeats the identical literals. -/
def sampleRfps : List Record :=
  [ { title := "Technology Services for State Systems"
      agency := agencyName
      posted_date := "2024-02-01"
      due_date := "2024-03-15"
      notice_id := "IN-IDOA-001-2024"
      description := "Request for proposals for technology services and systems integration"
      source := "Indiana IDOA"
      url := listingUrl },
    { title := "Consulting Services for Digital Transformation"
      agency := agencyName
      posted_date := "2024-02-05"
      due_date := "2024-03-20"
      notice_id := "IN-IDOA-002-2024"
      description := "State-wide digital transformation consulting and implementation services"
      source := "Indiana IDOA"
      url := listingUrl },
    { title := "Cloud Migration and Infrastructure Services"
      agency := agencyName
      posted_date := "2024-02-10"
      due_date := "2024-03-25"
      notice_id := "IN-IDOA-003-2024"
      description := "Cloud infrastructure services for state agency systems migration"
      source := "Indiana IDOA"
      url := listingUrl } ]

/-- The parsed `config.json` mapping.  The script only ever reads
`output_file` (line 221); the two other recognized options from the
configuration surface are carried to show they are never consulted. -/
structure Config where
  output_file : Option String
  min_title_length : Option Nat
  description_max_chars : Option Nat
deriving DecidableEq

/-- Line 221: `self.config.get('output_file', 'rfp_data.json')`. -/
def outputFileName (config : Config) : String :=
  config.output_file.getD "rfp_data.json"

/-- The body of the `try:` block of `fetch_indiana_idoa_rfps`
(lines 40-162), as a possibly-raising computation.  `netResult` is the
outcome of `requests.get` + `raise_for_status` + BeautifulSoup parsing +
element collection (lines 42-69): on success the collected `rfp_elements`,
each itself possibly raising when the loop body's library calls run on it.
When the loop accepts nothing the fallback at lines 128-162 substitutes the
sample records inside the `try:` block. -/
def fetchBody (hashFn : String → Int) (today : String)
    (netResult : Except PyExn (List (Except PyExn Element))) :
    Except PyExn (List Record) :=
  match netResult with
  | .error e => .error e
  | .ok elems =>
    let rfps := processElements hashFn today elems
    .ok (if rfps.isEmpty then sampleRfps else rfps)

/-- The whole of `fetch_indiana_idoa_rfps` with its two exception handlers
(lines 164-202) applied to the body: `requests.exceptions.RequestException`
is answered with the sample records, any other `Exception` with `[]`.  The
`config` parameter is the method's `self.config`, which the method never
reads. -/
def fetchCaught (_config : Config) (hashFn : String → Int) (today : String)
    (netResult : Except PyExn (List (Except PyExn Element))) :
    Except PyExn (List Record) :=
  match fetchBody hashFn today netResult with
  | .ok rfps => .ok rfps
  | .error (.requestException _) => .ok sampleRfps
  | .error (.otherException _) => .ok []

/-- The list `fetch_indiana_idoa_rfps` returns to its caller (line 204).
The error branch is unreachable: see the theorem for claim C4. -/
def fetch_indiana_idoa_rfps (config : Config) (hashFn : String → Int)
    (today : String) (netResult : Except PyExn (List (Except PyExn Element))) :
    List Record :=
  match fetchCaught config hashFn today netResult with
  | .ok rfps => rfps
  | .error _ => []

/-- Method `gather_rfps` (lines 206-216): extend `self.rfps` (the `state`
argument; `[]` on a fresh `RFPGatherer`) with the Indiana adapter's result
and return it.  There is no deduplication step and no per-source counter. -/
def gather_rfps (config : Config) (state : List Record)
    (hashFn : String → Int) (today : String)
    (netResult : Except PyExn (List (Except PyExn Element))) : List Record :=
  state ++ fetch_indiana_idoa_rfps config hashFn today netResult

/-- JSON values as far as this script produces them. -/
inductive JVal where
  | str (s : String)
  | num (n : Nat)
  | arr (elems : List JVal)
  | obj (fields : List (String × JVal))

/-- A record dict serialized as a JSON object, keys in insertion order. -/
def Record.toJson (r : Record) : JVal :=
  .obj (r.toPairs.map fun p => (p.1, .str p.2))

/-- The `output_data` dict of `save_to_file` (lines 223-227): exactly the
three keys `collected_at`, `total_rfps` and `rfps`, in that order.
`collectedAt` is `datetime.now().isoformat()`. -/
def outputData (collectedAt : String) (rfps : List Record) : JVal :=
  .obj [("collected_at", .str collectedAt),
        ("total_rfps", .num rfps.length),
        ("rfps", .arr (rfps.map Record.toJson))]

/-- Top-level keys of a JSON object (empty for non-objects). -/
def JVal.topKeys : JVal → List String
  | .obj fields => fields.map Prod.fst
  | _ => []

/-- Value of the first field with the given key in a JSON object. -/
def JVal.lookup : JVal → String → Option JVal
  | .obj fields, k => (fields.find? fun p => p.1 == k).map Prod.snd
  | _, _ => none

/-- The integer under the key `total_rfps` of an artifact, when present. -/
def totalRfpsOf (j : JVal) : Option Nat :=
  match j.lookup "total_rfps" with
  | some (.num n) => some n
  | _ => none

/-- Method `save_to_file` (lines 218-233) up to the actual file write: the
destination filename and the serialized artifact. -/
def save_to_file (config : Config) (collectedAt : String)
    (rfps : List Record) : String × JVal :=
  (outputFileName config, outputData collectedAt rfps)

/-- Whether an `Except` computation completed without raising. -/
def okB {ε α : Type} : Except ε α → Bool
  | .ok _ => true
  | .error _ => false

/-- Function `main` (lines 254-280).  `configResult` is the outcome of
`RFPGatherer.__init__` (lines 19-23: open and parse `config.json`;
`FileNotFoundError` and `json.JSONDecodeError` are both caught by `main`
and answered with `sys.exit(1)`); `writeFile` is the outcome of opening and
writing the output file in `save_to_file`.  A normal return is process exit
code 0; any caught exception is `sys.exit(1)`.  The returned Bool records
whether the adapter was invoked: on a configuration failure `main` aborts
before `gather_rfps` runs. -/
def mainRun (configResult : Except PyExn Config) (hashFn : String → Int)
    (today : String) (netResult : Except PyExn (List (Except PyExn Element)))
    (collectedAt : String) (writeFile : String → JVal → Except PyExn Unit) :
    Nat × Bool :=
  match configResult with
  | .error _ => (1, false)
  | .ok config =>
    let rfps := gather_rfps config [] hashFn today netResult
    let artifact := save_to_file config collectedAt rfps
    match writeFile artifact.1 artifact.2 with
    | .error _ => (1, true)
    | .ok _ => (0, true)

/-- Whether the run's Sink write succeeded (false as well when the
configuration never loaded, so the Sink never ran). -/
def sinkOutcome (configResult : Except PyExn Config) (hashFn : String → Int)
    (today : String) (netResult : Except PyExn (List (Except PyExn Element)))
    (collectedAt : String) (writeFile : String → JVal → Except PyExn Unit) :
    Bool :=
  match configResult with
  | .error _ => false
  | .ok config =>
    let artifact := save_to_file config collectedAt
      (gather_rfps config [] hashFn today netResult)
    okB (writeFile artifact.1 artifact.2)

/-- Keys of a record dict, in order. -/
def recordKeysOf (r : Record) : List String := r.toPairs.map Prod.fst

/-- A configuration with none of the recognized options set. -/
def cfg0 : Config :=
  { output_file := none, min_title_length := none, description_max_chars := none }

/-- A configuration that sets `min_title_length` to 20. -/
def cfg20 : Config :=
  { output_file := none, min_title_length := some 20, description_max_chars := none }

/-- A process whose string hash is constantly 0. -/
def hash0 : String → Int := fun _ => 0

/-- A process whose string hash is constantly 1. -/
def hash1 : String → Int := fun _ => 1

/-- A well-formed scraped element: 30-character title, relative href, two
dates in the text. -/
def elemGood : Element :=
  { titleText := some "Road Maintenance Projects 2024"
    linkHref := some "/idoa/opp/123"
    textContent := "Road Maintenance Projects 2024 posted 2024-02-01 due 2024-03-01"
    dates := ["2024-02-01", "2024-03-01"] }

/-- The record the loop body produces from `elemGood` in a process whose
string hash is constantly 0. -/
def recGood : Record :=
  { title := "Road Maintenance Projects 2024"
    agency := agencyName
    posted_date := "2024-02-01"
    due_date := "2024-03-01"
    notice_id := "IN-IDOA-0000"
    description := "Road Maintenance Projects 2024 posted 2024-02-01 due 2024-03-01"
    source := "Indiana IDOA"
    url := "https://www.in.gov/idoa/opp/123" }

/-- An element whose title has exactly 15 characters. -/
def elem15 : Element :=
  { titleText := some "Roofing repairs"
    linkHref := none
    textContent := "Roofing repairs"
    dates := [] }

/-- An element whose href is a relative reference (it contains no scheme)
that happens to start with the four characters `http`. -/
def elemHttpdocs : Element :=
  { titleText := some "Bridge Painting Program Details"
    linkHref := some "httpdocs/page.html"
    textContent := "Bridge Painting Program Details"
    dates := [] }

/-- A 210-character text, longer than the 200-character budget. -/
def longText : String := String.mk (List.replicate 210 'b')

/-- An element whose text exceeds the 200-character description budget. -/
def elemLong : Element :=
  { titleText := some "Statewide Data Center Operations"
    linkHref := none
    textContent := longText
    dates := [] }

/-! Helper lemmas shared by the claim theorems. -/

/-- Every accepted record of the loop body has the constant source and
agency, a title longer than 10 characters, and the description, notice id
and URL computed by the translated field formulas. -/
theorem extractRfp_fields (hashFn : String → Int) (today : String)
    (el : Element) (r : Record) (h : extractRfp hashFn today el = some r) :
    r.source = "Indiana IDOA" ∧ r.agency = agencyName ∧
    10 < r.title.length ∧ r.description = descriptionOf el.textContent ∧
    r.notice_id = noticeId hashFn r.title ∧ r.url = recordUrl el.linkHref := by
  unfold extractRfp at h
  split at h
  · cases h
  · split at h
    · cases h
    · split at h
      · next h2 =>
        injection h with h
        subst h
        exact ⟨rfl, rfl, h2, rfl, rfl, rfl⟩
      · cases h

/-- The three sample records all carry the constant source, a nonempty
agency, a nonempty URL and a title longer than 10 characters. -/
theorem sampleRfps_fields :
    ∀ r ∈ sampleRfps, r.source = "Indiana IDOA" ∧ r.agency ≠ "" ∧
      r.url ≠ "" ∧ 10 < r.title.length := by decide

/-- The stored URL is never empty: an empty resolved href falls back to the
listing-page URL. -/
theorem recordUrl_ne_empty (linkHref : Option String) :
    recordUrl linkHref ≠ "" := by
  show (if resolveUrl (linkHref.getD "") = "" then listingUrl
        else resolveUrl (linkHref.getD "")) ≠ ""
  split
  · decide
  · next hres => exact hres

/-- Every record the adapter returns comes either from the sample fallback
or from the loop body accepting some element. -/
theorem mem_fetch_cases (config : Config) (hashFn : String → Int)
    (today : String)
    (netResult : Except PyExn (List (Except PyExn Element))) (r : Record)
    (hr : r ∈ fetch_indiana_idoa_rfps config hashFn today netResult) :
    r ∈ sampleRfps ∨ ∃ el : Element, extractRfp hashFn today el = some r := by
  cases netResult with
  | error e =>
    cases e with
    | requestException m =>
      exact Or.inl hr
    | otherException m =>
      cases hr
  | ok elems =>
    have hfe : fetch_indiana_idoa_rfps config hashFn today (Except.ok elems) =
        if (processElements hashFn today elems).isEmpty then sampleRfps
        else processElements hashFn today elems := rfl
    rw [hfe] at hr
    split at hr
    · exact Or.inl hr
    · right
      simp only [processElements, List.mem_filterMap] at hr
      obtain ⟨e, _, he⟩ := hr
      cases e with
      | error _ => cases he
      | ok el => exact ⟨el, he⟩

/-- Appending a nonempty head keeps a string nonempty. -/
theorem base_append_ne_empty (u : String) : baseUrl ++ u ≠ "" := by
  obtain ⟨l⟩ := u
  intro hcon
  have hdata : (baseUrl ++ String.mk l).data = "".data := congrArg String.data hcon
  cases hdata

/-! Claim theorems. -/

/-- C1 counterexample: in a run whose scrape extracts zero candidates the
adapter does not return an empty list: it substitutes the three hardcoded
sample records, so the persisted artifact reports `total_rfps` 3 with a
nonempty `rfps` array, and those records carry only the eight standard keys
— no field flags them as simulated. -/
theorem C1_counterexample :
    fetch_indiana_idoa_rfps cfg0 hash0 "2024-01-01" (Except.ok []) = sampleRfps ∧
    totalRfpsOf (outputData "2024-01-01T00:00:00"
      (gather_rfps cfg0 [] hash0 "2024-01-01" (Except.ok []))) = some 3 ∧
    sampleRfps.map recordKeysOf = [recordKeys, recordKeys, recordKeys] := by
  refine ⟨rfl, rfl, by decide⟩

/-- C1 amended: whenever the loop accepts zero candidates the adapter
substitutes the three hardcoded sample records (announced only by a console
message, not in the data), the artifact then reports `total_rfps` 3, and
the substituted records carry only the eight standard keys, so nothing in
the artifact distinguishes them from live data. -/
theorem C1_zero_candidate_fallback (config : Config) (hashFn : String → Int)
    (today collectedAt : String) (elems : List (Except PyExn Element))
    (h : processElements hashFn today elems = []) :
    fetch_indiana_idoa_rfps config hashFn today (Except.ok elems) = sampleRfps ∧
    totalRfpsOf (outputData collectedAt
      (fetch_indiana_idoa_rfps config hashFn today (Except.ok elems))) = some 3 ∧
    sampleRfps.map recordKeysOf = [recordKeys, recordKeys, recordKeys] := by
  have hb : fetchBody hashFn today (Except.ok elems) =
      Except.ok (if (processElements hashFn today elems).isEmpty then sampleRfps
        else processElements hashFn today elems) := rfl
  rw [h] at hb
  have hf : fetch_indiana_idoa_rfps config hashFn today (Except.ok elems) = sampleRfps := by
    unfold fetch_indiana_idoa_rfps fetchCaught
    rw [hb]
    rfl
  refine ⟨hf, ?_, by decide⟩
  rw [hf]
  rfl

/-- Witness for the amended C1 at the concrete zero-candidate run. -/
theorem C1_zero_candidate_fallback_witness :
    fetch_indiana_idoa_rfps cfg0 hash0 "2024-01-02" (Except.ok []) = sampleRfps ∧
    totalRfpsOf (outputData "2024-01-02T00:00:00"
      (fetch_indiana_idoa_rfps cfg0 hash0 "2024-01-02" (Except.ok []))) = some 3 ∧
    sampleRfps.map recordKeysOf = [recordKeys, recordKeys, recordKeys] :=
  C1_zero_candidate_fallback cfg0 hash0 "2024-01-02" "2024-01-02T00:00:00" [] rfl

/-- C2 counterexample: two runs over the identical adapter input whose
processes have different string-hash salts (the two hash functions) produce
different `rfps` content, because `notice_id` is computed from Python's
salted `hash` of the title rather than from source, title and posted_date. -/
theorem C2_counterexample :
    fetch_indiana_idoa_rfps cfg0 hash0 "2024-01-01"
        (Except.ok [Except.ok elemGood]) ≠
      fetch_indiana_idoa_rfps cfg0 hash1 "2024-01-01"
        (Except.ok [Except.ok elemGood]) := by decide

/-- C2 amended: `notice_id` is `IN-IDOA-` followed by the title's hash
modulo 10000 zero-padded to four digits — a deterministic function of the
process's string-hash function and the title only, so output is
reproducible within one process but not across processes, whose salted
string hashes differ. -/
theorem C2_notice_id_formula (hashFn : String → Int) (today : String)
    (el : Element) (r : Record) (h : extractRfp hashFn today el = some r) :
    r.notice_id = noticeId hashFn r.title :=
  (extractRfp_fields hashFn today el r h).2.2.2.2.1

/-- Witness for the amended C2 at the concrete element. -/
theorem C2_notice_id_formula_witness :
    recGood.notice_id = noticeId hash0 recGood.title :=
  C2_notice_id_formula hash0 "2024-01-01" elemGood recGood (by decide)

/-- C3 counterexample: with `min_title_length` configured as 20, the
candidate title "Roofing repairs" (15 characters, strictly below that
threshold) still ends up in the batch: the code never consults the
configured threshold — its checks are hardcoded at 5 and 10 — and it keeps
no rejected-candidate counter. -/
theorem C3_counterexample :
    cfg20.min_title_length = some 20 ∧
    (fetch_indiana_idoa_rfps cfg20 hash0 "2024-01-01"
        (Except.ok [Except.ok elem15])).map Record.title = ["Roofing repairs"] ∧
    "Roofing repairs".length < 20 := by decide

/-- C3 amended: the title thresholds are hardcoded, not configured: titles
shorter than 5 characters are skipped early and only titles longer than 10
characters are appended (no rejected-candidate counter exists), so every
record the adapter returns — sample fallback included — has a title of at
least 11 characters. -/
theorem C3_title_threshold (config : Config) (hashFn : String → Int)
    (today : String)
    (netResult : Except PyExn (List (Except PyExn Element))) (r : Record)
    (hr : r ∈ fetch_indiana_idoa_rfps config hashFn today netResult) :
    11 ≤ r.title.length := by
  rcases mem_fetch_cases config hashFn today netResult r hr with hs | ⟨el, he⟩
  · exact (sampleRfps_fields r hs).2.2.2
  · exact (extractRfp_fields hashFn today el r he).2.2.1

/-- Witness for the amended C3 at a concrete accepted record. -/
theorem C3_title_threshold_witness : 11 ≤ recGood.title.length :=
  C3_title_threshold cfg0 hash0 "2024-01-01"
    (Except.ok [Except.ok elemGood]) recGood (by decide)

/-- C4: every network, parse, or decode failure during the fetch is caught
inside `fetch_indiana_idoa_rfps`: for every outcome of the request, the
page parse, and the per-element extraction, the adapter with its two
exception handlers completes without raising, returning exactly the plain
list its caller receives, so the caller can continue with other sources. -/
theorem C4_adapter_never_raises (config : Config) (hashFn : String → Int)
    (today : String)
    (netResult : Except PyExn (List (Except PyExn Element))) :
    fetchCaught config hashFn today netResult =
      Except.ok (fetch_indiana_idoa_rfps config hashFn today netResult) := by
  cases netResult with
  | ok elems => rfl
  | error e => cases e <;> rfl

/-- C5 counterexample: the href `httpdocs/page.html` contains no colon, so
it has no scheme and is a relative reference, yet the stored URL is the
href unchanged instead of the base concatenation: the code tests for the
four literal characters `http`, not for an absolute scheme. -/
theorem C5_counterexample :
    "httpdocs/page.html".data.contains ':' = false ∧
    (fetch_indiana_idoa_rfps cfg0 hash0 "2024-01-01"
        (Except.ok [Except.ok elemHttpdocs])).map Record.url =
      ["httpdocs/page.html"] := by decide

/-- C5 amended: a candidate's href is resolved against the base exactly
when it is nonempty and does not start with the four literal characters
`http`: the stored URL is then `https://www.in.gov` concatenated with the
href — in particular `/idoa/opp/123` becomes
`https://www.in.gov/idoa/opp/123` — while hrefs starting with `http` are
stored unchanged even when they are relative references. -/
theorem C5_url_resolution (hashFn : String → Int) (today : String)
    (el : Element) (u : String) (r : Record)
    (hu : el.linkHref = some u) (hne : u ≠ "")
    (hnp : pyStartswith u "http" = false)
    (hr : extractRfp hashFn today el = some r) :
    r.url = baseUrl ++ u := by
  have hurl := (extractRfp_fields hashFn today el r hr).2.2.2.2.2
  rw [hurl, hu]
  have hres : resolveUrl u = baseUrl ++ u := by
    unfold resolveUrl
    rw [if_pos ⟨hne, hnp⟩]
  show (if resolveUrl ((some u).getD "") = "" then listingUrl
        else resolveUrl ((some u).getD "")) = baseUrl ++ u
  have hg : (some u).getD "" = u := rfl
  rw [hg, hres, if_neg (base_append_ne_empty u)]

/-- Witness for the amended C5 at the concrete relative href. -/
theorem C5_url_resolution_witness : recGood.url = baseUrl ++ "/idoa/opp/123" :=
  C5_url_resolution hash0 "2024-01-01" elemGood "/idoa/opp/123" recGood
    rfl (by decide) (by decide) (by decide)

/-- C6 counterexample: the same candidate scraped twice — the two resulting
records agree on every field, `source` and `notice_id` included — survives
twice in the gathered batch: `gather_rfps` performs no deduplication and
keeps no duplicate counter. -/
theorem C6_counterexample :
    gather_rfps cfg0 [] hash0 "2024-01-01"
        (Except.ok [Except.ok elemGood, Except.ok elemGood]) =
      [recGood, recGood] := by decide

/-- C6 amended: the Aggregator performs no deduplication: `gather_rfps`
appends the adapter's records to the accumulated list keeping every
occurrence — the count of any record in the gathered batch is its count in
the accumulated state plus its count in the adapter result — so records
sharing `source` and `notice_id` all survive, and no duplicate counter
exists. -/
theorem C6_no_dedup (config : Config) (state : List Record)
    (hashFn : String → Int) (today : String)
    (netResult : Except PyExn (List (Except PyExn Element))) (r : Record) :
    (gather_rfps config state hashFn today netResult).count r =
      state.count r +
        (fetch_indiana_idoa_rfps config hashFn today netResult).count r := by
  simp [gather_rfps, List.count_append]

/-- C7: the run exits 0 exactly when the configuration loaded and the Sink
write succeeded — the adapter outcome `netResult`, source failures
included, never changes the exit code — and the adapter runs exactly when
the configuration loaded, so a configuration failure aborts the run before
any adapter is invoked. -/
theorem C7_exit_codes (configResult : Except PyExn Config)
    (hashFn : String → Int) (today : String)
    (netResult : Except PyExn (List (Except PyExn Element)))
    (collectedAt : String) (writeFile : String → JVal → Except PyExn Unit) :
    ((mainRun configResult hashFn today netResult collectedAt writeFile).1 = 0 ↔
      okB configResult = true ∧
      sinkOutcome configResult hashFn today netResult collectedAt writeFile = true) ∧
    ((mainRun configResult hashFn today netResult collectedAt writeFile).2 = true ↔
      okB configResult = true) := by
  cases configResult with
  | error e => simp [mainRun, sinkOutcome, okB]
  | ok config =>
    cases hw : writeFile
        (save_to_file config collectedAt
          (gather_rfps config [] hashFn today netResult)).1
        (save_to_file config collectedAt
          (gather_rfps config [] hashFn today netResult)).2 with
    | ok u => simp [mainRun, sinkOutcome, okB, hw]
    | error e => simp [mainRun, sinkOutcome, okB, hw]

/-- C8 counterexample: an element text of 210 characters is truncated to
its first 200 characters and stored with no trailing ellipsis marker
(neither `...` nor the one-character ellipsis), and the budget applied is
the hardcoded 200, not a configured value. -/
theorem C8_counterexample :
    longText.length = 210 ∧
    (fetch_indiana_idoa_rfps cfg0 hash0 "2024-01-01"
        (Except.ok [Except.ok elemLong])).map Record.description =
      [String.mk (List.replicate 200 'b')] ∧
    pyEndswith (String.mk (List.replicate 200 'b')) "..." = false ∧
    pyEndswith (String.mk (List.replicate 200 'b')) "…" = false := by decide

/-- C8 amended: for every accepted record the stored description is the
first 200 characters of the element text with surrounding whitespace
stripped; the budget is the hardcoded constant 200, and no ellipsis marker
is appended when truncation occurs. -/
theorem C8_description_truncation (hashFn : String → Int) (today : String)
    (el : Element) (r : Record) (h : extractRfp hashFn today el = some r) :
    r.description = pyStrip (pySlice el.textContent 200) :=
  (extractRfp_fields hashFn today el r h).2.2.2.1

/-- Witness for the amended C8 at the concrete element. -/
theorem C8_description_truncation_witness :
    recGood.description = pyStrip (pySlice elemGood.textContent 200) :=
  C8_description_truncation hash0 "2024-01-01" elemGood recGood (by decide)

/-- C9 counterexample: a concrete run's artifact has exactly the top-level
keys `collected_at`, `total_rfps` and `rfps` — it contains no `sources`
mapping with per-source accepted and rejected counts and error. -/
theorem C9_counterexample :
    (outputData "2024-01-01T00:00:00" sampleRfps).topKeys =
      ["collected_at", "total_rfps", "rfps"] ∧
    ((outputData "2024-01-01T00:00:00" sampleRfps).lookup "sources").isNone =
      true := by decide

/-- C9 amended: for every run the serialized artifact is a JSON object with
exactly the keys `collected_at`, `total_rfps` and `rfps`, in that order; no
`sources` mapping reporting per-source accepted count, rejected count and
error is emitted. -/
theorem C9_artifact_keys (collectedAt : String) (rfps : List Record) :
    (outputData collectedAt rfps).topKeys =
      ["collected_at", "total_rfps", "rfps"] ∧
    ((outputData collectedAt rfps).lookup "sources").isNone = true :=
  ⟨rfl, rfl⟩

/-- C10: every record the adapter ever returns — scraped or produced by the
sample fallback — has exactly the eight canonical keys in order, `source`
equal to `Indiana IDOA`, a nonempty `agency`, and a nonempty `url` (the
listing-page URL standing in when no per-record link exists). -/
theorem C10_record_shape (config : Config) (hashFn : String → Int)
    (today : String)
    (netResult : Except PyExn (List (Except PyExn Element))) (r : Record)
    (hr : r ∈ fetch_indiana_idoa_rfps config hashFn today netResult) :
    r.toPairs.map Prod.fst = recordKeys ∧ r.source = "Indiana IDOA" ∧
    r.agency ≠ "" ∧ r.url ≠ "" := by
  refine ⟨rfl, ?_⟩
  rcases mem_fetch_cases config hashFn today netResult r hr with hs | ⟨el, he⟩
  · obtain ⟨h1, h2, h3, _⟩ := sampleRfps_fields r hs
    exact ⟨h1, h2, h3⟩
  · obtain ⟨h1, h2, _, _, _, hurl⟩ := extractRfp_fields hashFn today el r he
    refine ⟨h1, ?_, ?_⟩
    · rw [h2]; decide
    · rw [hurl]; exact recordUrl_ne_empty el.linkHref

/-- Witness for C10 at a concrete scraped record. -/
theorem C10_record_shape_witness :
    recGood.toPairs.map Prod.fst = recordKeys ∧
    recGood.source = "Indiana IDOA" ∧ recGood.agency ≠ "" ∧ recGood.url ≠ "" :=
  C10_record_shape cfg0 hash0 "2024-01-01"
    (Except.ok [Except.ok elemGood]) recGood (by decide)

end RFP
